import Mathlib

/-!
Verification of the outreach orchestration core.

This file shallowly embeds the orchestration core of the repository:
the quality evaluator (`quality_control`), the generation-refinement
loop (`refine`), the per-record stage sequencer (`process_lead`), the
batch runner (`batch_process_leads`), the generation-service response
parsing fallbacks (`analyze_lead_profile`, `generate_personalized_email`),
and a small-step model of the semaphore-bounded batch concurrency.

Python floats are modelled as rationals, dictionaries as structures with
optional fields, raised exceptions as `Except` error values, and the
external collaborators (enrichment, generation service, persistence,
dispatch) as environment parameters, matching the interface the source
presents to them.
-/

set_option maxRecDepth 10000

namespace Outreach

/-- Characters-level check: does `pat` occur at the start of `hay`? -/
def startsWithL : List Char → List Char → Bool
  | _, [] => true
  | [], _ :: _ => false
  | h :: t, h' :: t' => h = h' && startsWithL t t'

/-- Characters-level check: does `pat` occur contiguously anywhere in `hay`?
Models the Python `pat in hay` substring test. -/
def containsL (pat : List Char) : List Char → Bool
  | [] => startsWithL [] pat
  | h :: t => startsWithL (h :: t) pat || containsL pat t

/-- `strContains hay pat` models the Python substring test `pat in hay`. -/
def strContains (hay pat : String) : Bool :=
  containsL pat.toList hay.toList

/-- Models Python `str.lower()`: character-wise lowercasing (same map as
`String.toLower`, stated on the character list so it computes). -/
def strLower (s : String) : String :=
  String.mk (s.toList.map Char.toLower)

/-- Word-counting pass: `inWord` tracks whether the previous character
was part of a word; each non-whitespace run counts once. -/
def wordCountAux : Bool → List Char → Nat
  | _, [] => 0
  | inWord, c :: t =>
    if c.isWhitespace then wordCountAux false t
    else (if inWord then 0 else 1) + wordCountAux true t

/-- Models Python `len(body.split())`: the number of maximal
non-whitespace runs in the body. -/
def wordCount (body : String) : Nat :=
  wordCountAux false body.toList

/-- Analysis result dictionary produced by the generation service's
analysis capability (`analyze_lead_profile` in `kimi_agent.py`).
Absent dictionary keys are `none` / `[]`. -/
structure Analysis where
  pain_points : List String := []
  interests : List String := []
  trigger_events : List String := []
  personalization_hooks : List String := []
  communication_style : Option String := none
  relevance_score : Option ℚ := none
  recommended_approach : Option String := none
  raw_analysis : Option String := none
deriving DecidableEq, Repr

/-- Draft email dictionary produced by the generation service
(`generate_personalized_email` in `kimi_agent.py`). -/
structure EmailDraft where
  subject_line : String := ""
  email_body : String := ""
  personalization_elements : List String := []
  reasoning : Option String := none
  expected_response_rate : Option ℚ := none
  error : Option String := none
deriving DecidableEq, Repr

/-- Result dictionary of `_quality_control` in `orchestrator.py`. -/
structure QualityCheck where
  quality_score : ℚ
  passes_qa : Bool
  issues : List String
  word_count : Nat
  personalization_count : Nat
deriving DecidableEq, Repr

/-- The fixed call-to-action keyword list from `_quality_control`. -/
def cta_keywords : List String :=
  ["call", "chat", "meet", "discuss", "connect", "interested"]

/-- The fixed spam-phrase list from `_quality_control`. -/
def spam_phrases : List String :=
  ["hope this email finds you well",
   "i wanted to reach out",
   "just touching base",
   "hope all is well",
   "checking in"]

/-- Translation of `OutreachOrchestrator._quality_control` (orchestrator.py,
lines 232-292): five sequential checks accumulating a score and an
issue list, then the 0.7 pass flag. -/
def quality_control (email : EmailDraft) (analysis : Analysis) : QualityCheck :=
  let personalization_count := email.personalization_elements.length
  let body := email.email_body
  let word_count := wordCount body
  let sc1 : ℚ × List String :=
    if 3 ≤ personalization_count then ((0.3 : ℚ), [])
    else (0, ["Only " ++ toString personalization_count ++
              " personalization elements (need 3+)"])
  let sc2 : ℚ × List String :=
    if 50 ≤ word_count ∧ word_count ≤ 200 then (sc1.1 + 0.2, sc1.2)
    else (sc1.1, sc1.2 ++ ["Word count " ++ toString word_count ++ " (ideal: 50-200)"])
  let sc3 : ℚ × List String :=
    if cta_keywords.any (fun kw => strContains (strLower body) kw) then (sc2.1 + 0.2, sc2.2)
    else (sc2.1, sc2.2 ++ ["No clear call-to-action"])
  let sc4 : ℚ × List String :=
    if spam_phrases.any (fun p => strContains (strLower body) p) then
      (sc3.1, sc3.2 ++ ["Contains generic spam phrases"])
    else (sc3.1 + 0.2, sc3.2)
  let relevance := analysis.relevance_score.getD 0
  let score := sc4.1 + relevance * 0.1
  { quality_score := score
    passes_qa := decide ((0.7 : ℚ) ≤ score)
    issues := sc4.2
    word_count := word_count
    personalization_count := personalization_count }

/-- Spec-side weight of the personalization-density check (§4.1 of the
spec): +0.3 when at least 3 personalization elements are declared. -/
def persContribution (e : EmailDraft) : ℚ :=
  if 3 ≤ e.personalization_elements.length then 0.3 else 0

/-- Spec-side weight of the length check: +0.2 when the body word count
lies in [50, 200] inclusive. -/
def lenContribution (e : EmailDraft) : ℚ :=
  if 50 ≤ wordCount e.email_body ∧ wordCount e.email_body ≤ 200 then 0.2 else 0

/-- Spec-side weight of the call-to-action check: +0.2 when the
lowercased body contains one of the six fixed keywords. -/
def ctaContribution (e : EmailDraft) : ℚ :=
  if ∃ kw ∈ cta_keywords, strContains (strLower e.email_body) kw = true then 0.2 else 0

/-- Spec-side weight of the non-genericness check: +0.2 when the
lowercased body contains none of the five fixed spam phrases. -/
def spamContribution (e : EmailDraft) : ℚ :=
  if ∃ p ∈ spam_phrases, strContains (strLower e.email_body) p = true then 0 else 0.2

/-- Spec-side relevance contribution: the analysis relevance score
(default 0) times 0.1. -/
def relContribution (a : Analysis) : ℚ :=
  a.relevance_score.getD 0 * 0.1

/-- Spec-side total score: the sum of the five contributions of §4.1. -/
def specScore (e : EmailDraft) (a : Analysis) : ℚ :=
  persContribution e + lenContribution e + ctaContribution e +
    spamContribution e + relContribution a

/-- Spec-side count of failed boolean checks (each appends one issue). -/
def failedChecks (e : EmailDraft) : Nat :=
  (if 3 ≤ e.personalization_elements.length then 0 else 1) +
  (if 50 ≤ wordCount e.email_body ∧ wordCount e.email_body ≤ 200 then 0 else 1) +
  (if ∃ kw ∈ cta_keywords, strContains (strLower e.email_body) kw = true then 0 else 1) +
  (if ∃ p ∈ spam_phrases, strContains (strLower e.email_body) p = true then 1 else 0)

/-- Campaign status enumeration from `models.py` (`OutreachStatus`). -/
inductive OutreachStatus where
  | pending
  | analyzing
  | ready
  | sent
  | opened
  | clicked
  | replied
  | failed
  | skipped
deriving DecidableEq, Repr

/-- Campaign row created by `_create_campaign` (`OutreachCampaign` in
`models.py`, restricted to the fields the orchestrator writes). -/
structure OutreachCampaign where
  id : Nat
  lead_id : Nat
  subject_line : String
  email_body : String
  personalization_elements : List String
  analysisSnapshot : Analysis
  qualitySnapshot : QualityCheck
  status : OutreachStatus
  sent_at : Option Nat
deriving DecidableEq, Repr

/-- Observable calls the sequencer makes on its collaborators, in
program order. -/
inductive Event where
  | enrichCall
  | analysisCall
  | genCall
  | qcCall
  | artifactCreate (campaign : OutreachCampaign)
  | dispatchCall (campaign_id : Nat)
deriving DecidableEq, Repr

/-- Is this event a generation-service call? -/
def Event.isGenCall : Event → Bool
  | Event.genCall => true
  | _ => false

/-- Is this event a quality-evaluator call? -/
def Event.isQcCall : Event → Bool
  | Event.qcCall => true
  | _ => false

/-- Is this event an analysis call? -/
def Event.isAnalysisCall : Event → Bool
  | Event.analysisCall => true
  | _ => false

/-- Is this event an artifact-create call on the persistence layer? -/
def Event.isArtifactCreate : Event → Bool
  | Event.artifactCreate _ => true
  | _ => false

/-- Is this event a dispatch call? -/
def Event.isDispatchCall : Event → Bool
  | Event.dispatchCall _ => true
  | _ => false

/-- The generation/quality loop of `process_lead` (orchestrator.py,
lines 86-104): `for attempt in range(max_attempts)`, generate a draft,
score it, and break at the first score reaching 0.8; the last attempt's
draft and check survive the loop either way.  `i` is the attempt index,
the second argument the number of attempts remaining; a raised
generation error aborts the loop.  Also returns the collaborator-call
events in order. -/
def refineFrom (gen : Nat → Except String EmailDraft) (analysis : Analysis) :
    Nat → Nat → Except String (EmailDraft × QualityCheck) × List Event
  | _, 0 => (Except.error "no generation attempt ran", [])
  | i, n + 1 =>
    match gen i with
    | Except.error e => (Except.error e, [Event.genCall])
    | Except.ok draft =>
      let qc := quality_control draft analysis
      if (0.8 : ℚ) ≤ qc.quality_score then
        (Except.ok (draft, qc), [Event.genCall, Event.qcCall])
      else if n = 0 then
        (Except.ok (draft, qc), [Event.genCall, Event.qcCall])
      else
        let rest := refineFrom gen analysis (i + 1) n
        (rest.1, Event.genCall :: Event.qcCall :: rest.2)

/-- The generation-refinement loop started at attempt 0 (the spec's
`refine` contract, §4.2). -/
def refine (gen : Nat → Except String EmailDraft) (analysis : Analysis)
    (max_attempts : Nat) : Except String (EmailDraft × QualityCheck) × List Event :=
  refineFrom gen analysis 0 max_attempts

/-- Result of `_enrich_lead_data`: that stage catches its own
exceptions, so it reports success (with an opaque data bundle) or
failure but never raises. -/
inductive EnrichResult where
  | success (data : List (String × String))
  | failed (error : String)
deriving DecidableEq, Repr

/-- Result dictionary of `_send_email`. -/
structure SendResult where
  success : Bool
  sent_at : Option Nat
deriving DecidableEq, Repr

/-- Translation of `_send_email` (orchestrator.py, lines 324-344): mark
the campaign sent with a timestamp and report success (the dispatch
body is a logging placeholder that always succeeds; its database commit
can still raise, which the caller models separately). -/
def send_email (campaign : OutreachCampaign) (now : Nat) :
    SendResult × OutreachCampaign :=
  let campaign := { campaign with status := OutreachStatus.sent, sent_at := some now }
  ({ success := true, sent_at := some now }, campaign)

/-- One record's environment: the responses of the external
collaborators (enrichment providers, generation service, persistence,
dispatch) for this `process_lead` run.  `Except.error` models a raised
exception crossing back into the sequencer. -/
structure LeadEnv where
  lead_id : Nat := 0
  lead_name : String := ""
  company : Option String := none
  enrich : EnrichResult
  analysis : Except String Analysis
  gen : Nat → Except String EmailDraft
  persist : Except String Nat
  dispatch : Except String Unit := Except.ok ()
  dispatchTime : Nat := 0

/-- The outcome dictionary `process_lead` builds and returns. -/
structure ProcessResult where
  lead_id : Nat
  lead_name : String
  status : String
  relevance_score : Option ℚ := none
  campaign_id : Option Nat := none
  enrichment : Option EnrichResult := none
  analysis : Option Analysis := none
  email_generation : Option EmailDraft := none
  quality_check : Option QualityCheck := none
  send : Option SendResult := none
  error : Option String := none
deriving DecidableEq, Repr

/-- Translation of `_create_campaign` (orchestrator.py, lines 294-322):
the campaign row committed for a finished draft, with the
persistence-assigned id `cid` and status `ready`. -/
def create_campaign (env : LeadEnv) (draft : EmailDraft) (a : Analysis)
    (qc : QualityCheck) (cid : Nat) : OutreachCampaign :=
  { id := cid, lead_id := env.lead_id,
    subject_line := draft.subject_line,
    email_body := draft.email_body,
    personalization_elements := draft.personalization_elements,
    analysisSnapshot := a, qualitySnapshot := qc,
    status := OutreachStatus.ready, sent_at := none }

/-- Translation of `OutreachOrchestrator.process_lead` (orchestrator.py,
lines 31-130): the per-record stage sequencer.  Returns the outcome
dictionary, the ordered collaborator-call events, and the list of
campaign rows committed to the persistence layer. -/
def process_lead (min_personalization_score : ℚ) (env : LeadEnv)
    (auto_send : Bool) : ProcessResult × List Event × List OutreachCampaign :=
  let base : ProcessResult :=
    { lead_id := env.lead_id, lead_name := env.lead_name, status := "processing" }
  match env.enrich with
  | EnrichResult.failed _ =>
    ({ base with status := "enrichment_failed", enrichment := some env.enrich },
     [Event.enrichCall], [])
  | EnrichResult.success _ =>
    let base := { base with enrichment := some env.enrich }
    match env.analysis with
    | Except.error e =>
      ({ base with status := "error", error := some e },
       [Event.enrichCall, Event.analysisCall], [])
    | Except.ok a =>
      let base := { base with analysis := some a }
      let relevance_score := a.relevance_score.getD 0
      if relevance_score < min_personalization_score then
        ({ base with status := "low_relevance", relevance_score := some relevance_score },
         [Event.enrichCall, Event.analysisCall], [])
      else
        let r := refine env.gen a 2
        let evs := [Event.enrichCall, Event.analysisCall] ++ r.2
        match r.1 with
        | Except.error e =>
          ({ base with status := "error", error := some e }, evs, [])
        | Except.ok (draft, qc) =>
          let base := { base with email_generation := some draft, quality_check := some qc }
          match env.persist with
          | Except.error e =>
            ({ base with status := "error", error := some e }, evs, [])
          | Except.ok cid =>
            let campaign := create_campaign env draft a qc cid
            let base := { base with campaign_id := some cid, status := "ready" }
            let evs := evs ++ [Event.artifactCreate campaign]
            if auto_send ∧ (0.8 : ℚ) ≤ qc.quality_score then
              match env.dispatch with
              | Except.error e =>
                ({ base with status := "error", error := some e },
                 evs ++ [Event.dispatchCall cid], [campaign])
              | Except.ok _ =>
                let sr := send_email campaign env.dispatchTime
                let st := if sr.1.success then "sent" else "send_failed"
                ({ base with send := some sr.1, status := st },
                 evs ++ [Event.dispatchCall cid], [sr.2])
            else
              ({ base with status := "pending_review" }, evs, [campaign])

/-- Aggregate statistics dictionary of `batch_process_leads`. -/
structure BatchStats where
  total : Nat
  successful : Nat
  sent : Nat
  low_relevance : Nat
  failed : Nat
deriving DecidableEq, Repr

/-- Translation of `batch_process_leads` (orchestrator.py, lines
346-405): run the sequencer once per fetched record and tally the
outcome statuses.  `envs` are the fetched records with their
collaborator responses; `asyncio.gather(..., return_exceptions=True)`
yields the outcomes in submission order. -/
def batch_process_leads (min_personalization_score : ℚ) (envs : List LeadEnv)
    (auto_send : Bool) : List ProcessResult × BatchStats :=
  let results := envs.map fun env => (process_lead min_personalization_score env auto_send).1
  (results,
   { total := results.length
     successful := results.countP fun r => r.status == "ready" || r.status == "sent"
     sent := results.countP fun r => r.status == "sent"
     low_relevance := results.countP fun r => r.status == "low_relevance"
     failed := results.countP fun r => r.status == "error" || r.status == "enrichment_failed" })

/-- The fenced-JSON extraction step shared by the kimi-agent response
handlers: take the block after a ```json fence (or after the first
``` fence) and strip it; otherwise use the content as is. -/
def extract_json_block (content : String) : String :=
  if strContains content "```json" then
    ((((content.splitOn "```json").getD 1 "").splitOn "```").headD "").trim
  else if strContains content "```" then
    ((((content.splitOn "```").getD 1 "").splitOn "```").headD "").trim
  else content

/-- Translation of the response-parsing tail of
`KimiAgent.analyze_lead_profile` (kimi_agent.py, lines 191-209).
`parse` stands for `json.loads`; `content` is the raw generation-service
response text.  A parse failure falls back to the raw text plus a 0.5
relevance score instead of raising. -/
def analyze_lead_profile (parse : String → Except String Analysis)
    (content : String) : Analysis :=
  match parse (extract_json_block content) with
  | Except.ok analysis => analysis
  | Except.error _ => { relevance_score := some 0.5, raw_analysis := some content }

/-- Translation of the response-parsing tail of
`KimiAgent.generate_personalized_email` (kimi_agent.py, lines 292-310).
`company` is the value stored under the `lead_data` dict's `company`
key — at the one call site (`_generate_email`) that key is always
present and holds the nullable `lead.company`, so the `.get` default
is dead there and a `None` value reaches the fallback's subject-line
concatenation `"Quick question about your work at " + None`, which
raises `TypeError` out of the `except json.JSONDecodeError` handler;
with a non-null company the parse failure falls back to a draft whose
body is the raw response text with an empty personalization-element
list. -/
def generate_personalized_email (parse : String → Except String EmailDraft)
    (company : Option String) (content : String) : Except String EmailDraft :=
  match parse (extract_json_block content) with
  | Except.ok email_data => Except.ok email_data
  | Except.error e =>
    match company with
    | none =>
      Except.error "TypeError: can only concatenate str (not NoneType) to str"
    | some c =>
      Except.ok
        { subject_line := "Quick question about your work at " ++ c
          email_body := content
          personalization_elements := []
          error := some e }

/-- A concrete draft: three personalization elements, a three-word body
with a call-to-action and no spam phrase. -/
def draftA : EmailDraft :=
  { subject_line := "s", email_body := "lets chat soon",
    personalization_elements := ["a", "b", "c"] }

/-- A concrete analysis with a perfect relevance score. -/
def anaFull : Analysis := { relevance_score := some 1 }

/-- A concrete analysis with relevance score 0.5. -/
def anaHalf : Analysis := { relevance_score := some 0.5 }

/-- A concrete record environment: enrichment succeeds, analysis is
`anaFull`, every generation attempt returns `draftA`, persistence
assigns campaign id 7, dispatch succeeds. -/
def envA : LeadEnv :=
  { enrich := EnrichResult.success [], analysis := Except.ok anaFull,
    gen := fun _ => Except.ok draftA, persist := Except.ok 7 }

/-- Like `envA` but the analysis has relevance score 0.5. -/
def envHalf : LeadEnv :=
  { enrich := EnrichResult.success [], analysis := Except.ok anaHalf,
    gen := fun _ => Except.ok draftA, persist := Except.ok 7 }

/-- A record environment whose enrichment stage reports failure. -/
def envFail : LeadEnv :=
  { enrich := EnrichResult.failed "enrichment provider down",
    analysis := Except.error "unused", gen := fun _ => Except.error "unused",
    persist := Except.error "unused" }

/-- Like `envA` but the dispatch commit raises. -/
def envDispatchFail : LeadEnv :=
  { enrich := EnrichResult.success [], analysis := Except.ok anaFull,
    gen := fun _ => Except.ok draftA, persist := Except.ok 7,
    dispatch := Except.error "smtp connection refused" }

/-- Scheduling phase of one record-task inside the batch runner: not yet
past the semaphore, holding a slot, or finished (with a failure flag
for outcomes captured by `return_exceptions=True`). -/
inductive TaskPhase where
  | waiting
  | running
  | done (failed : Bool)
deriving DecidableEq, Repr

/-- Is the task currently holding a semaphore slot? -/
def TaskPhase.isRunning : TaskPhase → Bool
  | TaskPhase.running => true
  | _ => false

/-- Is the task still queued before the semaphore? -/
def TaskPhase.isWaiting : TaskPhase → Bool
  | TaskPhase.waiting => true
  | _ => false

/-- Has the task finished (successfully or not)? -/
def TaskPhase.isDone : TaskPhase → Bool
  | TaskPhase.done _ => true
  | _ => false

/-- State of the batch runner's cooperative scheduler: the semaphore's
free permits and the phase of every record-task. -/
structure BatchSchedState where
  permits : Nat
  tasks : List TaskPhase
deriving DecidableEq, Repr

/-- Number of record-tasks currently in flight (past the semaphore
acquire and before its release). -/
def runningCount (s : BatchSchedState) : Nat :=
  s.tasks.countP TaskPhase.isRunning

/-- Number of record-tasks still queued before the semaphore. -/
def waitingCount (s : BatchSchedState) : Nat :=
  s.tasks.countP TaskPhase.isWaiting

/-- Small-step semantics of `async with semaphore` in
`batch_process_leads` (orchestrator.py, lines 374-389): a waiting task
may start only when a permit is free (taking one); a running task may
finish with any outcome (returning its permit).  No step cancels or
touches any other task. -/
inductive SemStep : BatchSchedState → BatchSchedState → Prop
  | start (s : BatchSchedState) (i : Nat)
      (h : s.tasks.get? i = some TaskPhase.waiting) (hp : 0 < s.permits) :
      SemStep s { permits := s.permits - 1, tasks := s.tasks.set i TaskPhase.running }
  | finish (s : BatchSchedState) (i : Nat) (failed : Bool)
      (h : s.tasks.get? i = some TaskPhase.running) :
      SemStep s { permits := s.permits + 1, tasks := s.tasks.set i (TaskPhase.done failed) }

/-- Reachability under the scheduler's steps. -/
def SemReach : BatchSchedState → BatchSchedState → Prop :=
  Relation.ReflTransGen SemStep

/-- Initial scheduler state: `asyncio.Semaphore(max_concurrent)` full
and all record-tasks queued. -/
def initState (max_concurrent n : Nat) : BatchSchedState :=
  { permits := max_concurrent, tasks := List.replicate n TaskPhase.waiting }

/-- Evaluation of the quality check on `draftA` with relevance 1:
checks 1, 3, 4 pass, the length check fails, so the score is
0.3 + 0.2 + 0.2 + 1 * 0.1 = 0.8. -/
lemma quality_control_draftA_full :
    quality_control draftA anaFull =
      { quality_score := 0.8, passes_qa := true,
        issues := ["Word count 3 (ideal: 50-200)"],
        word_count := 3, personalization_count := 3 } := by
  have h1 : wordCount "lets chat soon" = 3 := by decide
  have h2 : (cta_keywords.any fun kw => strContains (strLower "lets chat soon") kw) = true := by
    decide
  have h3 : (spam_phrases.any fun p => strContains (strLower "lets chat soon") p) = false := by
    decide
  have h4 : "Word count " ++ toString (3 : Nat) ++ " (ideal: 50-200)" =
      "Word count 3 (ideal: 50-200)" := by decide
  norm_num [quality_control, draftA, anaFull, h1, h2, h3, h4]

/-- Evaluation of the quality check on `draftA` with relevance 0.5: the
score is 0.3 + 0.2 + 0.2 + 0.5 * 0.1 = 0.75, above the 0.7 pass
threshold but below the 0.8 acceptance threshold. -/
lemma quality_control_draftA_half :
    quality_control draftA anaHalf =
      { quality_score := 0.75, passes_qa := true,
        issues := ["Word count 3 (ideal: 50-200)"],
        word_count := 3, personalization_count := 3 } := by
  have h1 : wordCount "lets chat soon" = 3 := by decide
  have h2 : (cta_keywords.any fun kw => strContains (strLower "lets chat soon") kw) = true := by
    decide
  have h3 : (spam_phrases.any fun p => strContains (strLower "lets chat soon") p) = false := by
    decide
  have h4 : "Word count " ++ toString (3 : Nat) ++ " (ideal: 50-200)" =
      "Word count 3 (ideal: 50-200)" := by decide
  norm_num [quality_control, draftA, anaHalf, h1, h2, h3, h4]

/-- Projection of the `anaFull` fixture. -/
lemma anaFull_rel : anaFull.relevance_score = some 1 := rfl

/-- Projection of the `anaHalf` fixture. -/
lemma anaHalf_rel : anaHalf.relevance_score = some (0.5 : ℚ) := rfl

/-- Counting a partition: three pairwise-exclusive predicates plus the
leftover predicate account for every list element exactly once. -/
lemma countP_partition {α : Type} (p q r : α → Bool)
    (hpq : ∀ x, p x = true → q x = false)
    (hpr : ∀ x, p x = true → r x = false)
    (hqr : ∀ x, q x = true → r x = false) :
    ∀ l : List α,
      l.countP p + l.countP q + l.countP r
        + l.countP (fun x => !p x && !q x && !r x) = l.length
  | [] => by simp
  | a :: t => by
    have ht := countP_partition p q r hpq hpr hqr t
    by_cases hp : p a = true
    · have hq' := hpq a hp
      have hr' := hpr a hp
      simp [List.countP_cons, hp, hq', hr']
      all_goals omega
    · have hp' : p a = false := by simpa using hp
      by_cases hq : q a = true
      · have hr' := hqr a hq
        simp [List.countP_cons, hp', hq, hr']
        all_goals omega
      · have hq' : q a = false := by simpa using hq
        by_cases hr : r a = true
        · simp [List.countP_cons, hp', hq', hr]
          all_goals omega
        · have hr' : r a = false := by simpa using hr
          simp [List.countP_cons, hp', hq', hr']
          all_goals omega

/-- How `countP` changes when one position of a list is overwritten. -/
lemma countP_set {α : Type} (p : α → Bool) :
    ∀ (l : List α) (i : Nat) (x v : α), l.get? i = some x →
      (l.set i v).countP p + (if p x then 1 else 0)
        = l.countP p + (if p v then 1 else 0)
  | [], i, x, v, h => by simp at h
  | a :: t, 0, x, v, h => by
    simp at h
    subst h
    simp [List.countP_cons]
    omega
  | a :: t, i + 1, x, v, h => by
    have := countP_set p t i x v h
    simp [List.countP_cons]
    omega

/-- A positive `countP` yields an index holding a satisfying element. -/
lemma exists_of_countP_pos {α : Type} (p : α → Bool) :
    ∀ l : List α, 0 < l.countP p → ∃ i x, l.get? i = some x ∧ p x = true
  | [], h => by simp at h
  | a :: t, h => by
    by_cases hp : p a = true
    · exact ⟨0, a, by simp, hp⟩
    · have ht : 0 < t.countP p := by
        simp [List.countP_cons, hp] at h
        simpa using h
      obtain ⟨i, x, hix, hx⟩ := exists_of_countP_pos p t ht
      exact ⟨i + 1, x, hix, hx⟩

/-- The refinement loop only ever emits generation and quality-check
events. -/
lemma refineFrom_events (gen : Nat → Except String EmailDraft) (a : Analysis) :
    ∀ (n i : Nat), ∀ ev ∈ (refineFrom gen a i n).2,
      ev = Event.genCall ∨ ev = Event.qcCall := by
  intro n
  induction n with
  | zero => intro i ev hev; simp [refineFrom] at hev
  | succ n ih =>
    intro i ev hev
    rcases hgen : gen i with e | draft <;> simp [refineFrom, hgen] at hev
    · simp [hev]
    · by_cases hth : (0.8 : ℚ) ≤ (quality_control draft a).quality_score
      · simp [hth] at hev
        rcases hev with h | h <;> simp [h]
      · by_cases hn : n = 0
        · simp [hth, hn] at hev
          rcases hev with h | h <;> simp [h]
        · simp [hth, hn] at hev
          rcases hev with h | h | h
          · simp [h]
          · simp [h]
          · exact ih (i + 1) ev h

/-- Evaluation of the refinement loop when every attempt yields
`draftA` with relevance 1: the first attempt scores 0.8 and is accepted
immediately. -/
lemma refine_envA :
    refine (fun _ => Except.ok draftA) anaFull 2 =
      (Except.ok (draftA, quality_control draftA anaFull),
       [Event.genCall, Event.qcCall]) := by
  norm_num [refine, refineFrom, quality_control_draftA_full]

/-- Evaluation of the refinement loop when every attempt yields
`draftA` with relevance 0.5: both attempts score 0.75 < 0.8, so the
loop runs twice and keeps the second attempt. -/
lemma refine_envHalf :
    refine (fun _ => Except.ok draftA) anaHalf 2 =
      (Except.ok (draftA, quality_control draftA anaHalf),
       [Event.genCall, Event.qcCall, Event.genCall, Event.qcCall]) := by
  norm_num [refine, refineFrom, quality_control_draftA_half]

/-- Every terminal status `process_lead` can return. -/
lemma process_lead_status_mem (min : ℚ) (env : LeadEnv) (auto_send : Bool) :
    (process_lead min env auto_send).1.status ∈
      ["enrichment_failed", "error", "low_relevance", "sent", "pending_review"] := by
  unfold process_lead
  rcases env.enrich with d | e <;> simp
  rcases env.analysis with e | a <;> simp
  split
  · simp
  · rcases h : (refine env.gen a 2).1 with e | ⟨draft, qc⟩ <;> simp
    rcases env.persist with e | cid <;> simp
    split
    · rcases env.dispatch with e | u <;> simp [send_email]
    · simp

/-- If no outcome in a list has status `ready`, the `ready`-or-`sent`
tally degenerates to the `sent` tally. -/
lemma countP_ready_or_sent (l : List ProcessResult)
    (h : ∀ r ∈ l, r.status ≠ "ready") :
    l.countP (fun r => r.status == "ready" || r.status == "sent")
      = l.countP (fun r => r.status == "sent") := by
  induction l with
  | nil => simp
  | cons a t ih =>
    have ha : (a.status == "ready") = false := by
      simpa using h a (by simp)
    have ht := ih fun r hr => h r (by simp [hr])
    simp [List.countP_cons, ha, ht]

/-- `countP` of a phase predicate over the all-waiting initial task
list, when the predicate rejects `waiting`. -/
lemma countP_replicate_waiting (p : TaskPhase → Bool)
    (hp : p TaskPhase.waiting = false) (n : Nat) :
    (List.replicate n TaskPhase.waiting).countP p = 0 := by
  induction n with
  | zero => simp
  | succ n ih => simp [List.replicate_succ, List.countP_cons, hp, ih]

/-- Semaphore invariant: free permits plus in-flight tasks always equal
the configured bound, and the task list never changes length. -/
lemma sem_inv (maxC n : Nat) (s : BatchSchedState)
    (h : SemReach (initState maxC n) s) :
    s.permits + runningCount s = maxC ∧ s.tasks.length = n := by
  induction h with
  | refl =>
    refine ⟨?_, by simp [initState]⟩
    simp [initState, runningCount,
      countP_replicate_waiting TaskPhase.isRunning rfl n]
  | @tail s₁ s₂ hr hstep ih =>
    cases hstep with
    | start i hi hperm =>
      have hrun := countP_set TaskPhase.isRunning s₁.tasks i
        TaskPhase.waiting TaskPhase.running hi
      simp [TaskPhase.isRunning] at hrun
      have hlen : (s₁.tasks.set i TaskPhase.running).length = s₁.tasks.length :=
        List.length_set s₁.tasks i TaskPhase.running
      refine ⟨?_, by simp [hlen, ih.2]⟩
      simp only [runningCount] at ih ⊢
      omega
    | finish i failed hi =>
      have hrun := countP_set TaskPhase.isRunning s₁.tasks i
        TaskPhase.running (TaskPhase.done failed) hi
      simp [TaskPhase.isRunning] at hrun
      have hlen : (s₁.tasks.set i (TaskPhase.done failed)).length = s₁.tasks.length :=
        List.length_set s₁.tasks i (TaskPhase.done failed)
      refine ⟨?_, by simp [hlen, ih.2]⟩
      simp only [runningCount] at ih ⊢
      omega

/-- Progress despite failures: from any state satisfying the semaphore
invariant, the scheduler can finish every task — regardless of which
tasks fail — without ever exceeding the bound. -/
lemma sem_progress (maxC : Nat) (hpos : 0 < maxC) :
    ∀ (k : Nat) (s : BatchSchedState),
      2 * waitingCount s + runningCount s ≤ k →
      s.permits + runningCount s = maxC →
      ∃ s', SemReach s s' ∧ (∀ t ∈ s'.tasks, t.isDone = true)
        ∧ s'.tasks.length = s.tasks.length := by
  intro k
  induction k with
  | zero =>
    intro s hk hinv
    have hw : waitingCount s = 0 := by omega
    have hr : runningCount s = 0 := by omega
    refine ⟨s, Relation.ReflTransGen.refl, ?_, rfl⟩
    intro t htmem
    have h1 := List.countP_eq_zero.mp hw t htmem
    have h2 := List.countP_eq_zero.mp hr t htmem
    cases t <;> simp_all [TaskPhase.isWaiting, TaskPhase.isRunning, TaskPhase.isDone]
  | succ k ih =>
    intro s hk hinv
    by_cases hr : 0 < runningCount s
    · obtain ⟨i, x, hix, hx⟩ :=
        exists_of_countP_pos TaskPhase.isRunning s.tasks hr
      have hxr : x = TaskPhase.running := by
        cases x <;> simp_all [TaskPhase.isRunning]
      subst hxr
      have hstep := SemStep.finish s i false hix
      have hrun := countP_set TaskPhase.isRunning s.tasks i
        TaskPhase.running (TaskPhase.done false) hix
      have hwait := countP_set TaskPhase.isWaiting s.tasks i
        TaskPhase.running (TaskPhase.done false) hix
      simp [TaskPhase.isRunning, TaskPhase.isWaiting] at hrun hwait
      obtain ⟨s'', hreach, hdone, hlen⟩ :=
        ih { permits := s.permits + 1, tasks := s.tasks.set i (TaskPhase.done false) }
          (by simp only [waitingCount, runningCount] at hk hr ⊢; omega)
          (by simp only [runningCount] at hinv ⊢; omega)
      refine ⟨s'', Relation.ReflTransGen.head hstep hreach, hdone, ?_⟩
      simpa [List.length_set] using hlen
    · by_cases hw : 0 < waitingCount s
      · have hr0 : runningCount s = 0 := by omega
        have hperm : 0 < s.permits := by omega
        obtain ⟨i, x, hix, hx⟩ :=
          exists_of_countP_pos TaskPhase.isWaiting s.tasks hw
        have hxw : x = TaskPhase.waiting := by
          cases x <;> simp_all [TaskPhase.isWaiting]
        subst hxw
        have hstep := SemStep.start s i hix hperm
        have hrun := countP_set TaskPhase.isRunning s.tasks i
          TaskPhase.waiting TaskPhase.running hix
        have hwait := countP_set TaskPhase.isWaiting s.tasks i
          TaskPhase.waiting TaskPhase.running hix
        simp [TaskPhase.isRunning, TaskPhase.isWaiting] at hrun hwait
        obtain ⟨s'', hreach, hdone, hlen⟩ :=
          ih { permits := s.permits - 1, tasks := s.tasks.set i TaskPhase.running }
            (by simp only [waitingCount, runningCount] at hk hw hr0 ⊢; omega)
            (by simp only [runningCount] at hinv ⊢; omega)
        refine ⟨s'', Relation.ReflTransGen.head hstep hreach, hdone, ?_⟩
        simpa [List.length_set] using hlen
      · have hw0 : waitingCount s = 0 := by omega
        have hr0 : runningCount s = 0 := by omega
        refine ⟨s, Relation.ReflTransGen.refl, ?_, rfl⟩
        intro t htmem
        have h1 := List.countP_eq_zero.mp hw0 t htmem
        have h2 := List.countP_eq_zero.mp hr0 t htmem
        cases t <;> simp_all [TaskPhase.isWaiting, TaskPhase.isRunning, TaskPhase.isDone]

/-- A `process_lead` run either commits no campaign row or terminates
with a post-persistence status. -/
lemma process_lead_db_status (min : ℚ) (env : LeadEnv) (auto_send : Bool) :
    (process_lead min env auto_send).2.2 = []
    ∨ (process_lead min env auto_send).1.status ∈
        ["sent", "send_failed", "pending_review", "error"] := by
  unfold process_lead
  rcases env.enrich with d | e <;> simp
  rcases env.analysis with e | a <;> simp
  split
  · simp
  · rcases h : (refine env.gen a 2).1 with e | ⟨draft, qc⟩ <;> simp
    rcases env.persist with e | cid <;> simp
    split
    · rcases env.dispatch with e | u <;> simp [send_email]
    · simp

/-- C1: for every draft and analysis the evaluator's score equals the
exact sum of the five weighted contributions of §4.1 (personalization
+0.3, length +0.2, call-to-action +0.2, non-genericness +0.2, relevance
times 0.1), no contribution is negative when the relevance score is
non-negative, the sum is not clamped, and each failed boolean check
appends exactly one issue string. -/
theorem quality_score_is_weighted_sum (e : EmailDraft) (a : Analysis)
    (hrel : 0 ≤ a.relevance_score.getD 0) :
    (quality_control e a).quality_score = specScore e a
    ∧ 0 ≤ persContribution e ∧ 0 ≤ lenContribution e ∧ 0 ≤ ctaContribution e
    ∧ 0 ≤ spamContribution e ∧ 0 ≤ relContribution a
    ∧ (quality_control e a).issues.length = failedChecks e := by
  simp only [quality_control, specScore, persContribution, lenContribution,
    ctaContribution, spamContribution, relContribution, failedChecks,
    List.any_eq_true]
  constructor
  · split_ifs <;> ring
  refine ⟨by positivity, by positivity, by positivity, by positivity, ?_, ?_⟩
  · exact mul_nonneg hrel (by norm_num)
  · split_ifs <;> simp_all

/-- C1 witness: the weighted-sum theorem applied to the concrete draft
`draftA` and analysis `anaFull` (relevance 1 ≥ 0). -/
theorem quality_score_is_weighted_sum_witness :
    (0 : ℚ) ≤ anaFull.relevance_score.getD 0
    ∧ ((quality_control draftA anaFull).quality_score = specScore draftA anaFull
       ∧ 0 ≤ persContribution draftA ∧ 0 ≤ lenContribution draftA
       ∧ 0 ≤ ctaContribution draftA ∧ 0 ≤ spamContribution draftA
       ∧ 0 ≤ relContribution anaFull
       ∧ (quality_control draftA anaFull).issues.length = failedChecks draftA) :=
  ⟨by norm_num [anaFull],
   quality_score_is_weighted_sum draftA anaFull (by norm_num [anaFull])⟩

/-- C2: with `max_attempts = 2` the refinement loop calls the
generation service and the evaluator at most twice, returns immediately
with the first attempt when it scores at least 0.8, and when the first
attempt scores below 0.8 it proceeds with the second attempt's draft
and check (best effort, not rejected). -/
theorem refine_attempt_bound_and_threshold (gen : Nat → Except String EmailDraft)
    (a : Analysis) :
    ((refine gen a 2).2.countP Event.isGenCall ≤ 2
      ∧ (refine gen a 2).2.countP Event.isQcCall ≤ 2)
    ∧ (∀ d0, gen 0 = Except.ok d0 →
        (0.8 : ℚ) ≤ (quality_control d0 a).quality_score →
        refine gen a 2 =
          (Except.ok (d0, quality_control d0 a), [Event.genCall, Event.qcCall]))
    ∧ (∀ d0 d1, gen 0 = Except.ok d0 →
        (quality_control d0 a).quality_score < 0.8 →
        gen 1 = Except.ok d1 →
        refine gen a 2 =
          (Except.ok (d1, quality_control d1 a),
           [Event.genCall, Event.qcCall, Event.genCall, Event.qcCall])) := by
  refine ⟨?_, ?_, ?_⟩
  · rcases h0 : gen 0 with e | d0
    · simp [refine, refineFrom, h0, Event.isGenCall, Event.isQcCall, List.countP_cons]
    · by_cases hth : (0.8 : ℚ) ≤ (quality_control d0 a).quality_score
      · simp [refine, refineFrom, h0, hth, Event.isGenCall, Event.isQcCall,
          List.countP_cons]
      · rcases h1 : gen 1 with e | d1
        · simp [refine, refineFrom, h0, h1, hth, Event.isGenCall, Event.isQcCall,
            List.countP_cons]
        · by_cases hth1 : (0.8 : ℚ) ≤ (quality_control d1 a).quality_score <;>
            simp [refine, refineFrom, h0, h1, hth, hth1, Event.isGenCall,
              Event.isQcCall, List.countP_cons]
  · intro d0 h0 hth
    simp [refine, refineFrom, h0, hth]
  · intro d0 d1 h0 hlt h1
    have hth : ¬ (0.8 : ℚ) ≤ (quality_control d0 a).quality_score := not_le.mpr hlt
    by_cases hth1 : (0.8 : ℚ) ≤ (quality_control d1 a).quality_score <;>
      simp [refine, refineFrom, h0, h1, hth, hth1]

/-- C2 witness: with every attempt generating `draftA` under relevance
1, the first attempt scores 0.8 and the loop stops after one
generation and one evaluation. -/
theorem refine_attempt_bound_and_threshold_witness :
    ((0.8 : ℚ) ≤ (quality_control draftA anaFull).quality_score)
    ∧ refine (fun _ => Except.ok draftA) anaFull 2 =
        (Except.ok (draftA, quality_control draftA anaFull),
         [Event.genCall, Event.qcCall]) :=
  ⟨by norm_num [quality_control_draftA_full],
   (refine_attempt_bound_and_threshold (fun _ => Except.ok draftA) anaFull).2.1
     draftA rfl (by norm_num [quality_control_draftA_full])⟩

/-- C3: a failed enrichment yields the terminal status
`enrichment_failed` with no analysis, generation, or artifact-create
calls, and a relevance score below the configured minimum yields
`low_relevance` with no generation or artifact-create calls; neither
early exit commits any campaign row. -/
theorem early_exit_skips_generation_and_persistence (min : ℚ) (env : LeadEnv)
    (auto_send : Bool) :
    (∀ e, env.enrich = EnrichResult.failed e →
       (process_lead min env auto_send).1.status = "enrichment_failed"
       ∧ (process_lead min env auto_send).2.1.countP Event.isAnalysisCall = 0
       ∧ (process_lead min env auto_send).2.1.countP Event.isGenCall = 0
       ∧ (process_lead min env auto_send).2.1.countP Event.isArtifactCreate = 0
       ∧ (process_lead min env auto_send).2.2 = [])
    ∧ (∀ d a, env.enrich = EnrichResult.success d → env.analysis = Except.ok a →
        a.relevance_score.getD 0 < min →
        (process_lead min env auto_send).1.status = "low_relevance"
        ∧ (process_lead min env auto_send).2.1.countP Event.isGenCall = 0
        ∧ (process_lead min env auto_send).2.1.countP Event.isArtifactCreate = 0
        ∧ (process_lead min env auto_send).2.2 = []) := by
  constructor
  · intro e he
    simp [process_lead, he, Event.isAnalysisCall, Event.isGenCall,
      Event.isArtifactCreate, List.countP_cons]
  · intro d a hd ha hrel
    simp [process_lead, hd, ha, hrel, Event.isGenCall, Event.isArtifactCreate,
      List.countP_cons]

/-- C3 witness: the early-exit theorem applied to a record whose
enrichment fails and to a record whose relevance 0.5 is below the
configured minimum 0.7. -/
theorem early_exit_skips_generation_and_persistence_witness :
    (envFail.enrich = EnrichResult.failed "enrichment provider down"
      ∧ (process_lead 0.7 envFail false).1.status = "enrichment_failed"
      ∧ (process_lead 0.7 envFail false).2.2 = [])
    ∧ (anaHalf.relevance_score.getD 0 < (0.7 : ℚ)
      ∧ (process_lead 0.7 envHalf false).1.status = "low_relevance"
      ∧ (process_lead 0.7 envHalf false).2.2 = []) :=
  ⟨⟨rfl,
    ((early_exit_skips_generation_and_persistence 0.7 envFail false).1
      "enrichment provider down" rfl).1,
    ((early_exit_skips_generation_and_persistence 0.7 envFail false).1
      "enrichment provider down" rfl).2.2.2.2⟩,
   ⟨by norm_num [anaHalf],
    ((early_exit_skips_generation_and_persistence 0.7 envHalf false).2
      [] anaHalf rfl rfl (by norm_num [anaHalf])).1,
    ((early_exit_skips_generation_and_persistence 0.7 envHalf false).2
      [] anaHalf rfl rfl (by norm_num [anaHalf])).2.2.2⟩⟩

/-- C4: once a record passes generation (and the collaborators commit
and dispatch without raising), a campaign with status `ready` is
committed before the send decision: the outcome is `sent` exactly when
auto-send is on and the final score reaches 0.8 (and then the stored
campaign is marked sent with a populated timestamp), `send_failed`
never occurs since dispatch always reports success, every other case is
`pending_review` with the ready campaign still retrievable, and the
artifact-create event precedes any dispatch event. -/
theorem campaign_persisted_before_send_decision (min : ℚ) (env : LeadEnv)
    (auto_send : Bool) (d : List (String × String))
    (he : env.enrich = EnrichResult.success d)
    (a : Analysis) (ha : env.analysis = Except.ok a)
    (hrel : ¬ a.relevance_score.getD 0 < min)
    (draft : EmailDraft) (qc : QualityCheck)
    (hr : (refine env.gen a 2).1 = Except.ok (draft, qc))
    (cid : Nat) (hp : env.persist = Except.ok cid)
    (hd : env.dispatch = Except.ok ()) :
    ((process_lead min env auto_send).1.status = "sent"
        ↔ (auto_send = true ∧ (0.8 : ℚ) ≤ qc.quality_score))
    ∧ (process_lead min env auto_send).1.status ≠ "send_failed"
    ∧ ((auto_send = true ∧ (0.8 : ℚ) ≤ qc.quality_score) →
        (process_lead min env auto_send).2.2 =
          [{ create_campaign env draft a qc cid with
               status := OutreachStatus.sent, sent_at := some env.dispatchTime }]
        ∧ (process_lead min env auto_send).1.send =
            some { success := true, sent_at := some env.dispatchTime })
    ∧ (¬ (auto_send = true ∧ (0.8 : ℚ) ≤ qc.quality_score) →
        (process_lead min env auto_send).1.status = "pending_review"
        ∧ (process_lead min env auto_send).2.2 = [create_campaign env draft a qc cid])
    ∧ (∃ pre,
        (process_lead min env auto_send).2.1 =
          pre ++ [Event.artifactCreate (create_campaign env draft a qc cid)]
            ++ (if auto_send = true ∧ (0.8 : ℚ) ≤ qc.quality_score
                then [Event.dispatchCall cid] else [])
        ∧ ∀ ev ∈ pre, ev.isArtifactCreate = false ∧ ev.isDispatchCall = false) := by
  have hpre : ∀ ev ∈ [Event.enrichCall, Event.analysisCall] ++ (refine env.gen a 2).2,
      ev.isArtifactCreate = false ∧ ev.isDispatchCall = false := by
    intro ev hev
    rcases List.mem_append.mp hev with h | h
    · simp at h
      rcases h with h | h <;> subst h <;>
        simp [Event.isArtifactCreate, Event.isDispatchCall]
    · rcases refineFrom_events env.gen a 2 0 ev h with h1 | h1 <;>
        simp [h1, Event.isArtifactCreate, Event.isDispatchCall]
  by_cases hcond : auto_send = true ∧ (0.8 : ℚ) ≤ qc.quality_score
  · refine ⟨?_, ?_, ?_, ?_, ?_⟩
    · simp [process_lead, he, ha, hrel, hr, hp, hd, hcond, send_email]
    · simp [process_lead, he, ha, hrel, hr, hp, hd, hcond, send_email]
    · intro _
      constructor
      · simp [process_lead, he, ha, hrel, hr, hp, hd, hcond, send_email, create_campaign]
      · simp [process_lead, he, ha, hrel, hr, hp, hd, hcond, send_email]
    · intro hcon
      exact absurd hcond hcon
    · refine ⟨[Event.enrichCall, Event.analysisCall] ++ (refine env.gen a 2).2, ?_, hpre⟩
      simp [process_lead, he, ha, hrel, hr, hp, hd, hcond, send_email]
  · refine ⟨?_, ?_, ?_, ?_, ?_⟩
    · simp [process_lead, he, ha, hrel, hr, hp, hd, hcond, send_email]
    · simp [process_lead, he, ha, hrel, hr, hp, hd, hcond, send_email]
    · intro hcon
      exact absurd hcon hcond
    · intro _
      constructor
      · simp [process_lead, he, ha, hrel, hr, hp, hd, hcond, send_email]
      · simp [process_lead, he, ha, hrel, hr, hp, hd, hcond, send_email, create_campaign]
    · refine ⟨[Event.enrichCall, Event.analysisCall] ++ (refine env.gen a 2).2, ?_, hpre⟩
      simp [process_lead, he, ha, hrel, hr, hp, hd, hcond, send_email]

/-- C4 witness: the persistence-before-send theorem applied to `envA`
with auto-send off: the outcome is `pending_review` and the ready
campaign row is retrievable. -/
theorem campaign_persisted_before_send_decision_witness :
    (¬ anaFull.relevance_score.getD 0 < (0.7 : ℚ))
    ∧ (process_lead 0.7 envA false).1.status = "pending_review"
    ∧ (process_lead 0.7 envA false).2.2 =
        [create_campaign envA draftA anaFull (quality_control draftA anaFull) 7] :=
  ⟨by norm_num [anaFull],
   ((campaign_persisted_before_send_decision 0.7 envA false [] rfl anaFull rfl
      (by norm_num [anaFull]) draftA (quality_control draftA anaFull)
      (by simp [envA, refine_envA]) 7 rfl rfl).2.2.2.1 (by simp)).1,
   ((campaign_persisted_before_send_decision 0.7 envA false [] rfl anaFull rfl
      (by norm_num [anaFull]) draftA (quality_control draftA anaFull)
      (by simp [envA, refine_envA]) 7 rfl rfl).2.2.2.1 (by simp)).2⟩

/-- C5: the batch runner returns exactly one outcome per submitted
record (it never raises for an individual record, every outcome being a
plain result value), `total` equals the number of records, and the
`successful`, `low_relevance`, `failed` tallies plus the untallied
outcomes account for every record exactly once. -/
theorem batch_one_outcome_per_record (min : ℚ) (envs : List LeadEnv)
    (auto_send : Bool) :
    ((batch_process_leads min envs auto_send).1.length = envs.length
      ∧ (batch_process_leads min envs auto_send).2.total = envs.length)
    ∧ (batch_process_leads min envs auto_send).2.successful
        + (batch_process_leads min envs auto_send).2.low_relevance
        + (batch_process_leads min envs auto_send).2.failed
        + (batch_process_leads min envs auto_send).1.countP
            (fun r => !(r.status == "ready" || r.status == "sent")
              && !(r.status == "low_relevance")
              && !(r.status == "error" || r.status == "enrichment_failed"))
        = (batch_process_leads min envs auto_send).2.total := by
  have hpq : ∀ r : ProcessResult,
      (r.status == "ready" || r.status == "sent") = true →
      (r.status == "low_relevance") = false := by
    intro r h
    have h' : r.status = "ready" ∨ r.status = "sent" := by simpa using h
    rcases h' with h' | h' <;> rw [h'] <;> decide
  have hpr : ∀ r : ProcessResult,
      (r.status == "ready" || r.status == "sent") = true →
      (r.status == "error" || r.status == "enrichment_failed") = false := by
    intro r h
    have h' : r.status = "ready" ∨ r.status = "sent" := by simpa using h
    rcases h' with h' | h' <;> rw [h'] <;> decide
  have hqr : ∀ r : ProcessResult,
      (r.status == "low_relevance") = true →
      (r.status == "error" || r.status == "enrichment_failed") = false := by
    intro r h
    have h' : r.status = "low_relevance" := by simpa using h
    rw [h']
    decide
  refine ⟨⟨by simp [batch_process_leads], by simp [batch_process_leads]⟩, ?_⟩
  simp only [batch_process_leads]
  exact countP_partition _ _ _ hpq hpr hqr
    (envs.map fun env => (process_lead min env auto_send).1)

/-- C6: the aggregate tallies are exactly the §4.4 counts — and no
outcome with status `pending_review` or `send_failed` is counted in
either `successful` or `failed`. -/
theorem batch_stats_tallies (min : ℚ) (envs : List LeadEnv) (auto_send : Bool) :
    ((batch_process_leads min envs auto_send).2.successful
        = (batch_process_leads min envs auto_send).1.countP
            (fun r => r.status == "ready" || r.status == "sent"))
    ∧ ((batch_process_leads min envs auto_send).2.sent
        = (batch_process_leads min envs auto_send).1.countP
            (fun r => r.status == "sent"))
    ∧ ((batch_process_leads min envs auto_send).2.low_relevance
        = (batch_process_leads min envs auto_send).1.countP
            (fun r => r.status == "low_relevance"))
    ∧ ((batch_process_leads min envs auto_send).2.failed
        = (batch_process_leads min envs auto_send).1.countP
            (fun r => r.status == "error" || r.status == "enrichment_failed"))
    ∧ (batch_process_leads min envs auto_send).1.countP
        (fun r => (r.status == "pending_review" || r.status == "send_failed")
          && ((r.status == "ready" || r.status == "sent")
            || (r.status == "error" || r.status == "enrichment_failed"))) = 0 := by
  refine ⟨rfl, rfl, rfl, rfl, ?_⟩
  apply List.countP_eq_zero.mpr
  intro r _
  simp only [Bool.and_eq_true, Bool.or_eq_true, beq_iff_eq]
  rintro ⟨h1 | h1, h2⟩ <;> rcases h2 with (h2 | h2) | (h2 | h2) <;> simp_all

/-- C7 counterexample: the three thresholds are not configurable.  At
score 0.75 the evaluator's `passes` flag is on (0.70 gate) while the
refinement loop still retries (0.80 gate), and changing the only
configurable threshold (the relevance minimum, here 0.1 versus 0.4)
leaves the auto-send gate unmoved: with auto-send on, the outcome stays
`pending_review` under both configurations. -/
theorem thresholds_hardcoded_counterexample :
    ((quality_control draftA anaHalf).passes_qa = true
      ∧ (quality_control draftA anaHalf).quality_score = 0.75)
    ∧ (refine (fun _ => Except.ok draftA) anaHalf 2).2.countP Event.isGenCall = 2
    ∧ (process_lead 0.1 envHalf true).1.status = "pending_review"
    ∧ (process_lead 0.4 envHalf true).1.status = "pending_review" := by
  refine ⟨⟨?_, ?_⟩, ?_, ?_, ?_⟩
  · norm_num [quality_control_draftA_half]
  · norm_num [quality_control_draftA_half]
  · rw [refine_envHalf]
    decide
  · norm_num [process_lead, envHalf, anaHalf_rel, refine_envHalf,
      quality_control_draftA_half, send_email]
  · norm_num [process_lead, envHalf, anaHalf_rel, refine_envHalf,
      quality_control_draftA_half, send_email]

/-- C7 amended: the evaluator's `passes` flag equals score ≥ 0.70, a
threshold distinct in value from the 0.80 acceptance and auto-send
gates — but all three are hard-coded literals, not configuration: the
only configurable threshold is the relevance minimum, and `process_lead`
is invariant under changing it as long as the record clears it. -/
theorem passes_threshold_distinct_but_hardcoded :
    (∀ e a, (quality_control e a).passes_qa
        = decide ((0.7 : ℚ) ≤ (quality_control e a).quality_score))
    ∧ ((0.7 : ℚ) ≠ 0.8)
    ∧ (∀ (m₁ m₂ : ℚ) (env : LeadEnv) (auto_send : Bool) (a : Analysis),
        env.analysis = Except.ok a →
        ¬ a.relevance_score.getD 0 < m₁ → ¬ a.relevance_score.getD 0 < m₂ →
        process_lead m₁ env auto_send = process_lead m₂ env auto_send) := by
  refine ⟨fun e a => rfl, by norm_num, ?_⟩
  intro m₁ m₂ env auto_send a ha h1 h2
  rcases henr : env.enrich with d | e
  · simp [process_lead, henr, ha, h1, h2]
  · simp [process_lead, henr]

/-- C7 witness: the amended theorem applied at relevance 0.5 with
minima 0.1 and 0.4 — both runs coincide. -/
theorem passes_threshold_distinct_but_hardcoded_witness :
    envHalf.analysis = Except.ok anaHalf
    ∧ (¬ anaHalf.relevance_score.getD 0 < (0.1 : ℚ))
    ∧ (¬ anaHalf.relevance_score.getD 0 < (0.4 : ℚ))
    ∧ process_lead 0.1 envHalf true = process_lead 0.4 envHalf true :=
  ⟨rfl, by norm_num [anaHalf], by norm_num [anaHalf],
   passes_threshold_distinct_but_hardcoded.2.2 0.1 0.4 envHalf true anaHalf rfl
     (by norm_num [anaHalf]) (by norm_num [anaHalf])⟩

/-- C8 counterexample: with a record whose company is NULL (reachable:
`LeadCreate` in main.py allows `company=None`), an unparseable
generation-service response makes the email capability's own fallback
raise `TypeError` on the subject-line string concatenation — the parse
failure does escalate to a raised exception, refuting the claim as
stated. -/
theorem parse_failure_company_none_counterexample :
    ((fun _ : String => (Except.error "Expecting value" : Except String EmailDraft))
        (extract_json_block "plain text, no json") = Except.error "Expecting value")
    ∧ generate_personalized_email (fun _ => Except.error "Expecting value")
        none "plain text, no json"
      = Except.error "TypeError: can only concatenate str (not NoneType) to str" :=
  ⟨rfl, rfl⟩

/-- C8 amended: on an unparseable generation-service response the
analysis capability always returns the raw-text fallback with default
relevance 0.5 without raising; the email capability returns the
raw-body fallback draft with no personalization elements when the
record's company is non-null, but when the company is None the
fallback's subject-line concatenation itself raises `TypeError`, so
that parse failure escalates as an exception. -/
theorem parse_failure_fallback (pa : String → Except String Analysis)
    (pe : String → Except String EmailDraft)
    (content : String) (ea eb : String)
    (hA : pa (extract_json_block content) = Except.error ea)
    (hB : pe (extract_json_block content) = Except.error eb) :
    analyze_lead_profile pa content
      = { relevance_score := some 0.5, raw_analysis := some content }
    ∧ (∀ c : String, generate_personalized_email pe (some c) content
        = Except.ok
            { subject_line := "Quick question about your work at " ++ c
              email_body := content
              personalization_elements := []
              error := some eb })
    ∧ generate_personalized_email pe none content
      = Except.error "TypeError: can only concatenate str (not NoneType) to str" := by
  refine ⟨?_, ?_, ?_⟩
  · simp [analyze_lead_profile, hA]
  · intro c
    simp [generate_personalized_email, hB]
  · simp [generate_personalized_email, hB]

/-- C8 witness: the amended theorem applied to a parser that rejects
everything and a plain-text response, under a non-null and a null
company. -/
theorem parse_failure_fallback_witness :
    analyze_lead_profile (fun _ => Except.error "Expecting value")
        "plain text, no json"
      = { relevance_score := some 0.5, raw_analysis := some "plain text, no json" }
    ∧ generate_personalized_email (fun _ => Except.error "Expecting value")
        (some "TechCorp") "plain text, no json"
      = Except.ok
          { subject_line := "Quick question about your work at " ++ "TechCorp"
            email_body := "plain text, no json"
            personalization_elements := []
            error := some "Expecting value" }
    ∧ generate_personalized_email (fun _ => Except.error "Expecting value")
        none "plain text, no json"
      = Except.error "TypeError: can only concatenate str (not NoneType) to str" :=
  ⟨(parse_failure_fallback (fun _ => Except.error "Expecting value")
      (fun _ => Except.error "Expecting value")
      "plain text, no json" "Expecting value" "Expecting value" rfl rfl).1,
   (parse_failure_fallback (fun _ => Except.error "Expecting value")
      (fun _ => Except.error "Expecting value")
      "plain text, no json" "Expecting value" "Expecting value" rfl rfl).2.1 "TechCorp",
   (parse_failure_fallback (fun _ => Except.error "Expecting value")
      (fun _ => Except.error "Expecting value")
      "plain text, no json" "Expecting value" "Expecting value" rfl rfl).2.2⟩

/-- C9: in the semaphore-bounded scheduler, at no reachable state are
more than `max_concurrent` record-tasks in flight; when the bound is
filled, every possible step strictly lowers the in-flight count (no
task can start until a slot frees); and from any reachable state all
tasks can run to completion — individual failures never cancel or block
the rest. -/
theorem batch_concurrency_bound (maxC n : Nat) (hpos : 0 < maxC)
    (s : BatchSchedState) (h : SemReach (initState maxC n) s) :
    runningCount s ≤ maxC
    ∧ (runningCount s = maxC →
        ∀ s', SemStep s s' → runningCount s' < runningCount s)
    ∧ ∃ s', SemReach s s'
        ∧ (∀ t ∈ s'.tasks, t.isDone = true) ∧ s'.tasks.length = n := by
  obtain ⟨hinv, hlen⟩ := sem_inv maxC n s h
  refine ⟨by omega, ?_, ?_⟩
  · intro hfull s' hstep
    cases hstep with
    | start i hi hperm => exact absurd hperm (by omega)
    | finish i failed hi =>
      have hrun := countP_set TaskPhase.isRunning s.tasks i
        TaskPhase.running (TaskPhase.done failed) hi
      simp [TaskPhase.isRunning] at hrun
      simp only [runningCount] at hfull hrun ⊢
      omega
  · obtain ⟨s', hr, hdone, hl⟩ :=
      sem_progress maxC hpos (2 * waitingCount s + runningCount s) s le_rfl hinv
    exact ⟨s', hr, hdone, by rw [hl, hlen]⟩

/-- C9 witness: the bound theorem applied to the initial state with the
default limit 5 and three queued records. -/
theorem batch_concurrency_bound_witness :
    (0 < 5)
    ∧ runningCount (initState 5 3) ≤ 5
    ∧ ∃ s', SemReach (initState 5 3) s'
        ∧ (∀ t ∈ s'.tasks, t.isDone = true) ∧ s'.tasks.length = 3 :=
  ⟨by decide,
   (batch_concurrency_bound 5 3 (by decide) (initState 5 3)
      Relation.ReflTransGen.refl).1,
   (batch_concurrency_bound 5 3 (by decide) (initState 5 3)
      Relation.ReflTransGen.refl).2.2⟩

/-- C10 counterexample: a run that persists its campaign and then hits
a raising dispatch terminates as `error`, not as `sent`, `send_failed`,
or `pending_review`. -/
theorem artifact_with_error_status_counterexample :
    (process_lead 0.7 envDispatchFail true).1.status = "error"
    ∧ (process_lead 0.7 envDispatchFail true).2.2 ≠ []
    ∧ (process_lead 0.7 envDispatchFail true).1.status ∉
        (["sent", "send_failed", "pending_review"] : List String) := by
  refine ⟨?_, ?_, ?_⟩ <;>
    norm_num [process_lead, envDispatchFail, anaFull_rel, refine_envA,
      quality_control_draftA_full, send_email] <;>
    decide

/-- C10 amended: `process_lead` never returns `ready` or `processing`;
every run that commits an artifact terminates as `sent`, `send_failed`,
`pending_review`, or `error`; consequently the batch tally `successful`
always equals the `sent` tally. -/
theorem no_ready_or_processing_outcome (min : ℚ) (auto_send : Bool) :
    (∀ env : LeadEnv,
       (process_lead min env auto_send).1.status ≠ "ready"
       ∧ (process_lead min env auto_send).1.status ≠ "processing"
       ∧ ((process_lead min env auto_send).2.2 ≠ [] →
           (process_lead min env auto_send).1.status ∈
             ["sent", "send_failed", "pending_review", "error"]))
    ∧ ∀ envs : List LeadEnv,
        (batch_process_leads min envs auto_send).2.successful
          = (batch_process_leads min envs auto_send).2.sent := by
  constructor
  · intro env
    have hm := process_lead_status_mem min env auto_send
    refine ⟨?_, ?_, ?_⟩
    · intro hcontra
      rw [hcontra] at hm
      exact absurd hm (by decide)
    · intro hcontra
      rw [hcontra] at hm
      exact absurd hm (by decide)
    · intro hdb
      rcases process_lead_db_status min env auto_send with hnil | hpost
      · exact absurd hnil hdb
      · exact hpost
  · intro envs
    have hne : ∀ r ∈ (envs.map fun env => (process_lead min env auto_send).1),
        r.status ≠ "ready" := by
      intro r hr
      obtain ⟨env, _, heq⟩ := List.mem_map.mp hr
      have hm := process_lead_status_mem min env auto_send
      rw [heq] at hm
      intro hcontra
      rw [hcontra] at hm
      exact absurd hm (by decide)
    simp only [batch_process_leads]
    exact countP_ready_or_sent _ hne

/-- C10 witness: the amended theorem applied to a concrete auto-send
run: the outcome is never `ready`, the persisted run ends in the
post-persistence status set, and over a one-record batch
`successful = sent`. -/
theorem no_ready_or_processing_outcome_witness :
    (process_lead 0.7 envA true).1.status ≠ "ready"
    ∧ (process_lead 0.7 envA true).2.2 ≠ []
    ∧ (process_lead 0.7 envA true).1.status ∈
        ["sent", "send_failed", "pending_review", "error"]
    ∧ (batch_process_leads 0.7 [envA] true).2.successful
        = (batch_process_leads 0.7 [envA] true).2.sent :=
  ⟨((no_ready_or_processing_outcome 0.7 true).1 envA).1,
   by norm_num [process_lead, envA, anaFull_rel, refine_envA,
     quality_control_draftA_full, send_email],
   ((no_ready_or_processing_outcome 0.7 true).1 envA).2.2
     (by norm_num [process_lead, envA, anaFull_rel, refine_envA,
       quality_control_draftA_full, send_email]),
   (no_ready_or_processing_outcome 0.7 true).2 [envA]⟩

end Outreach
